import Mathlib

/-!
Verification development for the RadarSys repository.

The repository has three Python source files:
  * `raspberry/radar_service.py` — the edge node: sensor-pair timing,
    local SQLite detection buffer, idempotent synchronisation to a
    central PostgreSQL table, realtime event buffer, REST endpoints.
  * `manager_server.py` — the central manager: network discovery,
    registry of known nodes, status polling, central live event buffer,
    configuration endpoints.
  * `radar_config_routes.py` — extra edge endpoints (local config read).

Each definition below is a shallow embedding of one function of the
source, keeping the source's name wherever Lean allows it.  Machine
floats of the source are modelled by ℚ (the arithmetic on the values
involved is exact), SQL tables by lists of rows in insertion order,
Python dicts by association lists in insertion order, and network I/O
by explicit `Option` outcomes (`none` = failure / timeout).
-/

namespace RadarSys

/-! ## Edge node: local detection table (radar_service.py) -/

/-- A row of the local SQLite table `deteccoes`
(radar_service.py, `init_sqlite`, lines 107-118). -/
structure Deteccao where
  uuid : String
  radar_id : String
  timestamp : String
  velocidade : ℚ
  direcao : String
  acima_limite : Bool
  sincronizado : Bool
deriving DecidableEq, Repr

/-- The row INSERTed by `salvar_deteccao` (lines 141-158):
`acima_limite = 1 if velocidade > SPEED_LIMIT else 0` (strict) and
`sincronizado` takes the column default 0. -/
def nova_deteccao (SPEED_LIMIT : ℚ) (uid rid ts : String) (velocidade : ℚ)
    (direcao : String) : Deteccao :=
  { uuid := uid, radar_id := rid, timestamp := ts, velocidade := velocidade,
    direcao := direcao, acima_limite := decide (velocidade > SPEED_LIMIT),
    sincronizado := false }

/-- `salvar_deteccao` (lines 141-158): appends one detection row to the
local table.  It touches no other state and takes no central-store
argument: local recording is independent of central connectivity. -/
def salvar_deteccao (SPEED_LIMIT : ℚ) (db : List Deteccao) (uid rid ts : String)
    (velocidade : ℚ) (direcao : String) : List Deteccao :=
  db ++ [nova_deteccao SPEED_LIMIT uid rid ts velocidade direcao]

/-- `get_deteccoes_nao_sincronizadas` (lines 161-169):
`SELECT * FROM deteccoes WHERE sincronizado = 0 ORDER BY id LIMIT 100`;
rows are kept in insertion (= id) order. -/
def get_deteccoes_nao_sincronizadas (db : List Deteccao) : List Deteccao :=
  (db.filter (fun d => !d.sincronizado)).take 100

/-- `marcar_sincronizado` (lines 172-179):
`UPDATE deteccoes SET sincronizado = 1 WHERE uuid = ?` for each given uuid. -/
def marcar_sincronizado (db : List Deteccao) (uuids : List String) : List Deteccao :=
  db.map (fun d => if d.uuid ∈ uuids then { d with sincronizado := true } else d)

/-! ## Edge node: central PostgreSQL table and sync protocol -/

/-- A row of the central table `radar_deteccoes`
(radar_service.py, `garantir_tabela_pg`, lines 200-217); the `uuid`
column carries a UNIQUE constraint. -/
structure PgRow where
  uuid : String
  radar_id : String
  radar_nome : String
  timestamp : String
  velocidade : ℚ
  direcao : String
  acima_limite : Bool
deriving DecidableEq, Repr

/-- The row sent by `sincronizar_com_central` for one local detection
(lines 237-246). -/
def pg_row_de (RADAR_NAME : String) (det : Deteccao) : PgRow :=
  { uuid := det.uuid, radar_id := det.radar_id, radar_nome := RADAR_NAME,
    timestamp := det.timestamp, velocidade := det.velocidade,
    direcao := det.direcao, acima_limite := det.acima_limite }

/-- `INSERT INTO radar_deteccoes ... ON CONFLICT (uuid) DO NOTHING`
(lines 237-246): a no-op when a row with the same uuid already exists,
otherwise an append. -/
def pg_insert_on_conflict (central : List PgRow) (r : PgRow) : List PgRow :=
  if central.any (fun row => row.uuid = r.uuid) then central else central ++ [r]

/-- Number of central rows carrying a given detection uuid. -/
def pg_count (central : List PgRow) (u : String) : Nat :=
  central.countP (fun r => decide (r.uuid = u))

/-- `get_pg_connection` (lines 184-197): returns no connection when
psycopg2 is missing or `PG_HOST` is empty, and otherwise the outcome of
the network connect attempt (`conexao = none` models a connect failure). -/
def get_pg_connection (PG_AVAILABLE : Bool) (PG_HOST : String)
    (conexao : Option (List PgRow)) : Option (List PgRow) :=
  if PG_AVAILABLE = false ∨ PG_HOST = "" then none else conexao

/-- `sincronizar_com_central` (lines 219-260): one sync cycle.  Selects
the pending batch; returns with every state unchanged when the batch is
empty or no central connection is obtained; otherwise pushes each
pending row with the conflict-free insert and marks exactly the pushed
uuids as synchronised locally.  Returns (local table, central table). -/
def sincronizar_com_central (PG_AVAILABLE : Bool) (PG_HOST RADAR_NAME : String)
    (db : List Deteccao) (central : Option (List PgRow)) :
    List Deteccao × Option (List PgRow) :=
  let pendentes := get_deteccoes_nao_sincronizadas db
  if pendentes.isEmpty then (db, central)
  else
    match get_pg_connection PG_AVAILABLE PG_HOST central with
    | none => (db, central)
    | some pg =>
        let pg2 := pendentes.foldl
          (fun acc det => pg_insert_on_conflict acc (pg_row_de RADAR_NAME det)) pg
        let enviados := pendentes.map (fun d => d.uuid)
        (marcar_sincronizado db enviados, some pg2)

/-- `loop_sincronizacao` (lines 263-270) runs `sincronizar_com_central`
once per interval; `sync_iterado n` is the state after `n` cycles. -/
def sync_iterado (PG_AVAILABLE : Bool) (PG_HOST RADAR_NAME : String) :
    Nat → List Deteccao × Option (List PgRow) → List Deteccao × Option (List PgRow)
  | 0, s => s
  | n + 1, s =>
      sync_iterado PG_AVAILABLE PG_HOST RADAR_NAME n
        (sincronizar_com_central PG_AVAILABLE PG_HOST RADAR_NAME s.1 s.2)

/-! ## Edge node: sensor timing (radar_service.py, lines 276-334) -/

/-- `callback_sensor_b` (lines 300-334).  State `sensor_a_tempo :
Option ℚ` is the armed slot; `agora` is `time.time()` at the B trigger.
Returns the new slot value and the local table (extended via
`salvar_deteccao` exactly when a measurement is emitted).  All branches
are inside the single `sensor_lock` critical section of the source. -/
def callback_sensor_b (SENSOR_DIST_M SPEED_LIMIT : ℚ) (uid rid ts : String)
    (agora : ℚ) (sensor_a_tempo : Option ℚ) (db : List Deteccao) :
    Option ℚ × List Deteccao :=
  match sensor_a_tempo with
  | none => (none, db)
  | some tA =>
      let delta_t := agora - tA
      if delta_t ≤ 0 ∨ delta_t > 10 then (none, db)
      else
        let velocidade_ms := SENSOR_DIST_M / delta_t
        let velocidade_kmh := velocidade_ms * 3.6
        if velocidade_kmh > 200 then (none, db)
        else (none, salvar_deteccao SPEED_LIMIT db uid rid ts velocidade_kmh "A->B")

/-! ## Edge node: realtime event buffer -/

/-- The event dict built by `callback_sensor_b` (lines 324-333) and
consumed by the manager's polling loop. -/
structure Evento where
  uuid : String
  radar_id : String
  radar_nome : String
  velocidade : ℚ
  limite : ℚ
  acima_limite : Bool
  timestamp : String
  direcao : String
deriving DecidableEq, Repr

/-- `adicionar_evento_realtime` (lines 284-289): append, then drop the
oldest entry (index 0) when the buffer holds more than 50 events. -/
def adicionar_evento_realtime (eventos_realtime : List Evento) (dados : Evento) :
    List Evento :=
  let b := eventos_realtime ++ [dados]
  if 50 < b.length then b.tail else b

/-- `api_eventos` of the edge node (lines 446-452):
`list(reversed(eventos_realtime[-20:]))` — at most the 20 most recent
events, newest first. -/
def api_eventos (eventos_realtime : List Evento) : List Evento :=
  ((eventos_realtime.drop (eventos_realtime.length - 20))).reverse

/-! ## Python dict operations

Python dicts preserve insertion order; assignment replaces the value of
an existing key in place and otherwise appends a new key at the end.
Modelled on association lists (keys occur at most once). -/

/-- `m[k] = v` on a Python dict. -/
def dict_set {α : Type} : List (String × α) → String → α → List (String × α)
  | [], k, v => [(k, v)]
  | kv :: m, k, v => if kv.1 = k then (k, v) :: m else kv :: dict_set m k v

/-- `m.get(k)` on a Python dict. -/
def dict_get {α : Type} (m : List (String × α)) (k : String) : Option α :=
  (m.find? (fun kv => decide (kv.1 = k))).map (fun kv => kv.2)

/-! ## Manager: discovery (manager_server.py, lines 98-164) -/

/-- The JSON returned by the edge node's unauthenticated `/api/ping`
(radar_service.py, lines 517-525). -/
structure PingResp where
  servico : String
  radar_id : String
  radar_nome : String
  versao : String
deriving DecidableEq, Repr

/-- A value of `config["radares_conhecidos"]`
(manager_server.py, lines 139-143). -/
structure RadarInfo where
  ip : String
  radar_nome : String
  descoberto_em : String
deriving DecidableEq, Repr

/-- `descobrir_radar` (lines 112-125): probes one IP; `resposta = none`
models a timeout, non-200 status or connection error.  Qualifies the
host only when the payload carries `servico == "radar"`. -/
def descobrir_radar (ip : String) (resposta : Option PingResp) :
    Option (String × PingResp) :=
  match resposta with
  | some dados => if dados.servico = "radar" then some (ip, dados) else none
  | none => none

/-- Body of `checar_ip` inside `escanear_rede` (lines 133-144): a
qualifying answer is appended to the result list and registered (keyed
by node id) into `config["radares_conhecidos"]`. -/
def passo_scan (resposta : String → Option PingResp) (agora : String)
    (s : List (String × PingResp) × List (String × RadarInfo)) (ip : String) :
    List (String × PingResp) × List (String × RadarInfo) :=
  match descobrir_radar ip (resposta ip) with
  | some r =>
      (s.1 ++ [r],
       dict_set s.2 r.2.radar_id
         { ip := ip, radar_nome := r.2.radar_nome, descoberto_em := agora })
  | none => s

/-- Result and registry state of `escanear_rede` (lines 128-164) once
every probe thread has completed: one probe per host of the range.
(The completion order of the real threads permutes the result list;
the claims settled below are about membership, which is unaffected.) -/
def escanear_rede (hosts : List String) (resposta : String → Option PingResp)
    (registro : List (String × RadarInfo)) (agora : String) :
    List (String × PingResp) × List (String × RadarInfo) :=
  hosts.foldl (passo_scan resposta agora) ([], registro)

/-- One iteration of the thread-spawn loop of `escanear_rede`
(lines 149-156) acting on the number of alive probe threads: the loop
always starts exactly one new thread (`t.start()`), and when 50 or more
threads are alive it merely sleeps 0.1 s — it does not wait for the
count to fall.  `mortes` is the number of probes that happen to finish
during the iteration (possibly 0, since a probe may run up to the
1.5 s `SCAN_TIMEOUT` while an iteration takes well under that). -/
def spawn_iter (vivos : Nat) (mortes : Nat) : Nat :=
  vivos - mortes + 1

/-- Alive probe threads after the spawn loop has run one iteration per
entry of `mortes`. -/
def spawn_vivos (mortes : List Nat) : Nat :=
  mortes.foldl spawn_iter 0

/-! ## Manager: polling loop (manager_server.py, lines 76-215) -/

/-- The edge `/api/status` payload as far as the manager stores it
(radar_service.py, lines 393-423). -/
structure EdgeStatus where
  radar_nome : String
  total_deteccoes : Nat
  pendentes_sync : Nat
  postgresql_conectado : Bool
deriving DecidableEq, Repr

/-- A value of the manager's `status_radares` cache (lines 76-84):
the polled payload plus the keys `ip` and `online` set by
`loop_polling`; on a failed poll only `{ip, online, radar_id,
radar_nome}` are stored (`dados = none`). -/
structure StatusEntry where
  online : Bool
  ip : String
  radar_nome : String
  dados : Option EdgeStatus
deriving DecidableEq, Repr

/-- `atualizar_status_radar` (lines 81-84): overwrites the cache entry
of the given node. -/
def atualizar_status_radar (cache : List (String × StatusEntry))
    (radar_id : String) (dados : StatusEntry) : List (String × StatusEntry) :=
  dict_set cache radar_id dados

/-- `adicionar_evento` (lines 88-92): insert at the front, then drop the
last (oldest) entry when the buffer holds more than 200 events. -/
def adicionar_evento (eventos_recentes : List Evento) (evento : Evento) :
    List Evento :=
  let e := evento :: eventos_recentes
  if 200 < e.length then e.dropLast else e

/-- The event-ingestion part of one poll of one node
(lines 199-206): for each of the first 5 events of the page, append it
unless its uuid is empty or already occurs among the first 50 entries
of the central buffer at that moment. -/
def processar_eventos_poll (eventos_recentes : List Evento)
    (evts : List Evento) : List Evento :=
  (evts.take 5).foldl
    (fun acc ev =>
      if ev.uuid ≠ "" ∧ ¬ (acc.take 50).any (fun e => decide (e.uuid = ev.uuid))
      then adicionar_evento acc ev
      else acc)
    eventos_recentes

/-- One iteration of `loop_polling` for one registered node
(lines 187-212).  `status_resposta` is the outcome of the `status` call
(`none` = non-200, timeout or error), `eventos_resposta` that of the
subsequent `eventos` call, made only on status success. -/
def poll_node (radar_id : String) (info : RadarInfo)
    (status_resposta : Option EdgeStatus) (eventos_resposta : Option (List Evento))
    (cache : List (String × StatusEntry)) (eventos_recentes : List Evento) :
    List (String × StatusEntry) × List Evento :=
  match status_resposta with
  | some st =>
      (atualizar_status_radar cache radar_id
        { online := true, ip := info.ip, radar_nome := st.radar_nome,
          dados := some st },
       match eventos_resposta with
       | some evts => processar_eventos_poll eventos_recentes evts
       | none => eventos_recentes)
  | none =>
      (atualizar_status_radar cache radar_id
        { online := false, ip := info.ip, radar_nome := info.radar_nome,
          dados := none },
       eventos_recentes)

/-- One full pass of `loop_polling` (lines 184-215) over the registry.
The loop only reads `config["radares_conhecidos"]` (and skips entries
with an empty ip); the registry is returned unchanged. -/
def loop_polling_once (registro : List (String × RadarInfo))
    (status_de : String → Option EdgeStatus)
    (eventos_de : String → Option (List Evento))
    (cache : List (String × StatusEntry)) (eventos_recentes : List Evento) :
    List (String × RadarInfo) × List (String × StatusEntry) × List Evento :=
  let fim := registro.foldl
    (fun s kv =>
      if kv.2.ip = "" then s
      else poll_node kv.1 kv.2 (status_de kv.1) (eventos_de kv.1) s.1 s.2)
    (cache, eventos_recentes)
  (registro, fim.1, fim.2)

/-! ## Manager and edge configuration endpoints (claim C10) -/

/-- The manager's persistent configuration dict
(manager_server.py, `carregar_config`, lines 48-66). -/
structure ManagerConfig where
  pg_host : String
  pg_port : Nat
  pg_db : String
  pg_user : String
  pg_pass : String
  api_token : String
  speed_limit : ℚ
  sensor_dist_m : ℚ
  sensor_a_pin : Nat
  sensor_b_pin : Nat
  sync_interval : Nat
  radares_conhecidos : List (String × RadarInfo)
deriving DecidableEq, Repr

/-- The response of the manager's `GET /api/config`: the configuration
dict after `cfg.pop("pg_pass", None)`. -/
structure ManagerConfigPublica where
  pg_host : String
  pg_port : Nat
  pg_db : String
  pg_user : String
  api_token : String
  speed_limit : ℚ
  sensor_dist_m : ℚ
  sensor_a_pin : Nat
  sensor_b_pin : Nat
  sync_interval : Nat
  radares_conhecidos : List (String × RadarInfo)
deriving DecidableEq, Repr

/-- `api_get_config` (manager_server.py, lines 300-304): copies the
config and removes the `pg_pass` key before responding. -/
def api_get_config (config : ManagerConfig) : ManagerConfigPublica :=
  { pg_host := config.pg_host, pg_port := config.pg_port,
    pg_db := config.pg_db, pg_user := config.pg_user,
    api_token := config.api_token, speed_limit := config.speed_limit,
    sensor_dist_m := config.sensor_dist_m, sensor_a_pin := config.sensor_a_pin,
    sensor_b_pin := config.sensor_b_pin, sync_interval := config.sync_interval,
    radares_conhecidos := config.radares_conhecidos }

/-- Python's `str.strip()`, modelled on the character list of the
string: drop whitespace from both ends. -/
def python_strip (l : List Char) : List Char :=
  ((l.dropWhile Char.isWhitespace).reverse.dropWhile Char.isWhitespace).reverse

/-- Parsed form of one `.env` line, modelled on the character list of
the Python string: after `strip()`, a line that contains `=` and does
not start with `#` parses (`str.partition` at the first `=`) to
`(chave.strip(), valor.strip())`. -/
def env_linha_chave_valor (linha : List Char) : Option (String × String) :=
  let l := python_strip linha
  if l.any (fun c => c = '=') && !(decide (l.head? = some '#')) then
    some (⟨python_strip (l.takeWhile (fun c => c ≠ '='))⟩,
          ⟨python_strip ((l.dropWhile (fun c => c ≠ '=')).drop 1)⟩)
  else none

/-- One line of the `api_config_local` loop: entries whose key is
`PG_PASS` are never stored (`if chave.strip() not in ("PG_PASS",)`). -/
def config_local_passo (cfg : List (String × String)) (linha : List Char) :
    List (String × String) :=
  match env_linha_chave_valor linha with
  | some kv => if kv.1 = "PG_PASS" then cfg else dict_set cfg kv.1 kv.2
  | none => cfg

/-- `api_config_local` (radar_config_routes.py, lines 45-59): parses the
`.env` lines into a dict, omitting the `PG_PASS` entry. -/
def api_config_local (linhas : List (List Char)) : List (String × String) :=
  linhas.foldl config_local_passo []

/-! ## Helper lemmas -/

/-- A detection row with its synchronisation flag blanked: the part of
the row the sync protocol must never touch. -/
def sem_flag (d : Deteccao) : Deteccao := { d with sincronizado := false }

lemma dict_get_dict_set_eq {α : Type} (m : List (String × α)) (k : String) (v : α) :
    dict_get (dict_set m k v) k = some v := by
  induction m with
  | nil => simp [dict_set, dict_get]
  | cons kv m ih =>
      by_cases h : kv.1 = k
      · simp [dict_set, h, dict_get]
      · simpa [dict_set, h, dict_get] using ih

lemma dict_get_dict_set_ne {α : Type} (m : List (String × α)) (k k2 : String)
    (v : α) (h : k2 ≠ k) : dict_get (dict_set m k v) k2 = dict_get m k2 := by
  induction m with
  | nil => simp [dict_set, dict_get, Ne.symm h]
  | cons kv m ih =>
      by_cases hk : kv.1 = k
      · subst hk
        simp [dict_set, dict_get, Ne.symm h]
      · by_cases hk2 : kv.1 = k2
        · simp [dict_set, hk, dict_get, hk2, h]
        · simpa [dict_set, hk, dict_get, hk2] using ih

/-! ## Claim theorems -/

/-- C8: a B trigger that arrives while the armed slot is empty is a
no-op — no detection is recorded (the table is returned unchanged), the
slot stays empty, and the handler returns normally (it is a total
function; the source path is an early `return` after a debug log). -/
theorem c8_sensor_b_sem_a_armado (SENSOR_DIST_M SPEED_LIMIT : ℚ)
    (uid rid ts : String) (agora : ℚ) (db : List Deteccao) :
    callback_sensor_b SENSOR_DIST_M SPEED_LIMIT uid rid ts agora none db =
      (none, db) := rfl

/-- C6: when no central connection is configured (`PG_AVAILABLE` false
or `PG_HOST` empty) or reachable (`conexao = none`), the sync cycle
aborts with both the local table and the central state unchanged — so
every pending record stays unsynchronised — and `salvar_deteccao`
appends its row regardless: it takes no central-connectivity input at
all, so local recording succeeds independently of the central store. -/
theorem c6_central_indisponivel_aborta (PG_AVAILABLE : Bool)
    (PG_HOST RADAR_NAME : String) (db : List Deteccao)
    (central : Option (List PgRow))
    (h : get_pg_connection PG_AVAILABLE PG_HOST central = none)
    (SPEED_LIMIT : ℚ) (uid rid ts : String) (v : ℚ) (dir : String) :
    sincronizar_com_central PG_AVAILABLE PG_HOST RADAR_NAME db central =
      (db, central) ∧
    salvar_deteccao SPEED_LIMIT db uid rid ts v dir =
      db ++ [nova_deteccao SPEED_LIMIT uid rid ts v dir] := by
  refine ⟨?_, rfl⟩
  unfold sincronizar_com_central
  by_cases hp : (get_deteccoes_nao_sincronizadas db).isEmpty
  · simp [hp]
  · simp [hp, h]

/-- Witness for C6 at a concrete state: one pending detection, psycopg2
absent and no host configured. -/
theorem c6_witness :
    sincronizar_com_central false "" "n"
        [nova_deteccao 20 "u" "r" "t" 5 "A->B"] none =
      ([nova_deteccao 20 "u" "r" "t" 5 "A->B"], none) ∧
    salvar_deteccao 20 [nova_deteccao 20 "u" "r" "t" 5 "A->B"] "u2" "r" "t" 7 "A->B" =
      [nova_deteccao 20 "u" "r" "t" 5 "A->B"] ++ [nova_deteccao 20 "u2" "r" "t" 7 "A->B"] :=
  c6_central_indisponivel_aborta false "" "n"
    [nova_deteccao 20 "u" "r" "t" 5 "A->B"] none (by decide) 20 "u2" "r" "t" 7 "A->B"

/-- C5: the synchronised flag is the only field the sync protocol
mutates after creation.  `marcar_sincronizado` maps each row to the
same row with the flag forced true exactly on the given uuids (so a
true flag never reverts to false, third conjunct), every other column
of every row is unchanged (second conjunct), and a freshly saved
detection starts with the flag false (fourth and fifth conjuncts). -/
theorem c5_flag_unico_campo_mutavel (db : List Deteccao) (uuids : List String)
    (SPEED_LIMIT : ℚ) (uid rid ts : String) (v : ℚ) (dir : String) :
    marcar_sincronizado db uuids =
      db.map (fun d =>
        { d with sincronizado := d.sincronizado || decide (d.uuid ∈ uuids) }) ∧
    (marcar_sincronizado db uuids).map sem_flag = db.map sem_flag ∧
    List.Forall₂ (fun d d2 => d.sincronizado = true → d2.sincronizado = true)
      db (marcar_sincronizado db uuids) ∧
    (nova_deteccao SPEED_LIMIT uid rid ts v dir).sincronizado = false ∧
    salvar_deteccao SPEED_LIMIT db uid rid ts v dir =
      db ++ [nova_deteccao SPEED_LIMIT uid rid ts v dir] := by
  refine ⟨?_, ?_, ?_, rfl, rfl⟩
  · induction db with
    | nil => rfl
    | cons d rest ih =>
        by_cases hm : d.uuid ∈ uuids
        · simpa [marcar_sincronizado, hm] using ih
        · simpa [marcar_sincronizado, hm] using ih
  · induction db with
    | nil => rfl
    | cons d rest ih =>
        by_cases hm : d.uuid ∈ uuids
        · simpa [marcar_sincronizado, hm, sem_flag] using ih
        · simpa [marcar_sincronizado, hm, sem_flag] using ih
  · induction db with
    | nil => exact List.Forall₂.nil
    | cons d rest ih =>
        refine List.Forall₂.cons ?_ ih
        by_cases hm : d.uuid ∈ uuids <;> simp [hm]

/-- Witness for C5 at a concrete one-row table. -/
theorem c5_witness :
    marcar_sincronizado [nova_deteccao 20 "u" "r" "t" 5 "A->B"] ["u"] =
      [nova_deteccao 20 "u" "r" "t" 5 "A->B"].map (fun d =>
        { d with sincronizado :=
            d.sincronizado || decide (d.uuid ∈ (["u"] : List String)) }) ∧
    (nova_deteccao 20 "u" "r" "t" 5 "A->B").sincronizado = false :=
  ⟨(c5_flag_unico_campo_mutavel [nova_deteccao 20 "u" "r" "t" 5 "A->B"] ["u"]
      20 "u" "r" "t" 5 "A->B").1,
   (c5_flag_unico_campo_mutavel [nova_deteccao 20 "u" "r" "t" 5 "A->B"] ["u"]
      20 "u" "r" "t" 5 "A->B").2.2.2.1⟩

lemma pg_count_pos_any (central : List PgRow) (u : String) (r : PgRow)
    (hr : r.uuid = u) (h : 0 < pg_count central u) :
    central.any (fun row => decide (row.uuid = r.uuid)) = true := by
  rw [pg_count] at h
  rw [List.any_eq_true]
  obtain ⟨a, ha, hp⟩ := List.countP_pos_iff.mp h
  refine ⟨a, ha, ?_⟩
  simp only [decide_eq_true_eq] at hp ⊢
  rw [hp, hr]

/-- The conflict-free insert preserves a central row count of exactly
one for any uuid: a present uuid blocks the whole insert, and an absent
uuid with count one is impossible to duplicate. -/
lemma pg_insert_preserva_um (central : List PgRow) (r : PgRow) (u : String)
    (h : pg_count central u = 1) :
    pg_count (pg_insert_on_conflict central r) u = 1 := by
  by_cases hc : central.any (fun row => decide (row.uuid = r.uuid)) = true
  · rw [pg_insert_on_conflict, if_pos hc]
    exact h
  · rw [pg_insert_on_conflict, if_neg hc]
    rw [pg_count, List.countP_append]
    rw [pg_count] at h
    have hru : ¬ r.uuid = u := by
      intro hru
      apply hc
      exact pg_count_pos_any central u r hru (by rw [pg_count]; omega)
    simp [hru, h]

lemma pg_count_foldl_um (RADAR_NAME u : String) :
    ∀ (dets : List Deteccao) (pg : List PgRow), pg_count pg u = 1 →
      pg_count (dets.foldl
        (fun acc det => pg_insert_on_conflict acc (pg_row_de RADAR_NAME det))
        pg) u = 1
  | [], _, h => h
  | d :: dets, pg, h =>
      pg_count_foldl_um RADAR_NAME u dets
        (pg_insert_on_conflict pg (pg_row_de RADAR_NAME d))
        (pg_insert_preserva_um pg (pg_row_de RADAR_NAME d) u h)

lemma pg_count_sincronizar_um (PG_HOST RADAR_NAME : String) (hhost : PG_HOST ≠ "")
    (u : String) (db : List Deteccao) (pg : List PgRow)
    (h : pg_count pg u = 1) :
    ∃ pg2,
      (sincronizar_com_central true PG_HOST RADAR_NAME db (some pg)).2 = some pg2 ∧
      pg_count pg2 u = 1 := by
  simp only [sincronizar_com_central]
  by_cases hp : (get_deteccoes_nao_sincronizadas db).isEmpty
  · rw [if_pos hp]
    exact ⟨pg, rfl, h⟩
  · rw [if_neg hp]
    have hg : get_pg_connection true PG_HOST (some pg) = some pg := by
      simp [get_pg_connection, hhost]
    rw [hg]
    exact ⟨_, rfl, pg_count_foldl_um RADAR_NAME u _ pg h⟩

lemma pg_count_sync_iterado_um (PG_HOST RADAR_NAME : String)
    (hhost : PG_HOST ≠ "") (u : String) :
    ∀ (n : Nat) (db : List Deteccao) (pg : List PgRow), pg_count pg u = 1 →
      ∃ pg2,
        (sync_iterado true PG_HOST RADAR_NAME n (db, some pg)).2 = some pg2 ∧
        pg_count pg2 u = 1
  | 0, _, pg, h => ⟨pg, rfl, h⟩
  | n + 1, db, pg, h => by
      obtain ⟨pg2, h1, h2⟩ := pg_count_sincronizar_um PG_HOST RADAR_NAME hhost u db pg h
      have hx : sincronizar_com_central true PG_HOST RADAR_NAME db (some pg) =
          ((sincronizar_com_central true PG_HOST RADAR_NAME db (some pg)).1,
            some pg2) := by
        rw [← h1]
      rw [sync_iterado, hx]
      exact pg_count_sync_iterado_um PG_HOST RADAR_NAME hhost u n _ pg2 h2

/-- C1: for a detection uuid already present in the central table (with
its single row, as the uuid UNIQUE constraint guarantees), re-pushing a
row with that uuid is a no-op on the central table, and after any
number of repeated sync cycles — from any local state — the central
table still holds exactly one row for that uuid. -/
theorem c1_sync_idempotente (PG_HOST RADAR_NAME : String) (hhost : PG_HOST ≠ "")
    (u : String) (central : List PgRow) (r : PgRow)
    (hr : r.uuid = u) (hum : pg_count central u = 1) :
    pg_insert_on_conflict central r = central ∧
    ∀ (n : Nat) (db : List Deteccao),
      ∃ pg2,
        (sync_iterado true PG_HOST RADAR_NAME n (db, some central)).2 = some pg2 ∧
        pg_count pg2 u = 1 := by
  constructor
  · rw [pg_insert_on_conflict,
      if_pos (pg_count_pos_any central u r hr (by omega))]
  · intro n db
    exact pg_count_sync_iterado_um PG_HOST RADAR_NAME hhost u n db central hum

/-- A concrete central row for the C1 witness. -/
def pg_row_teste : PgRow :=
  { uuid := "u1", radar_id := "r", radar_nome := "n", timestamp := "t",
    velocidade := 10, direcao := "A->B", acima_limite := false }

/-- Witness for C1: uuid `u1` present centrally with one row, three sync
cycles of a local table still holding a pending copy of `u1`. -/
theorem c1_witness :
    pg_insert_on_conflict [pg_row_teste] pg_row_teste = [pg_row_teste] ∧
    pg_count ((sync_iterado true "central" "n" 3
        ([nova_deteccao 20 "u1" "r" "t" 10 "A->B"],
          some [pg_row_teste])).2.getD []) "u1" = 1 := by
  have h := c1_sync_idempotente "central" "n" (by decide) "u1" [pg_row_teste]
    pg_row_teste rfl (by decide)
  refine ⟨h.1, ?_⟩
  obtain ⟨pg2, h1, h2⟩ := h.2 3 [nova_deteccao 20 "u1" "r" "t" 10 "A->B"]
  rw [h1]
  simpa using h2

/-- C2: for an A-then-B sequence with an armed timestamp `tA`, writing
`Δt = agora - tA` and `v = (SENSOR_DIST_M / Δt) * 3.6`: when
`0 < Δt ≤ 10` and `v ≤ 200` the handler emits exactly one measurement —
the table is extended by exactly one row — whose speed is `v` and whose
over-limit flag is true iff `v > SPEED_LIMIT` (strict); when `Δt ≤ 0`,
`Δt > 10` or `v > 200` no measurement is emitted; the armed slot is
cleared in every case. -/
theorem c2_calculo_velocidade (SENSOR_DIST_M SPEED_LIMIT : ℚ)
    (uid rid ts : String) (agora tA : ℚ) (db : List Deteccao) :
    (0 < agora - tA → agora - tA ≤ 10 →
      SENSOR_DIST_M / (agora - tA) * 3.6 ≤ 200 →
      callback_sensor_b SENSOR_DIST_M SPEED_LIMIT uid rid ts agora (some tA) db =
        (none, db ++ [nova_deteccao SPEED_LIMIT uid rid ts
          (SENSOR_DIST_M / (agora - tA) * 3.6) "A->B"]) ∧
      ((nova_deteccao SPEED_LIMIT uid rid ts
          (SENSOR_DIST_M / (agora - tA) * 3.6) "A->B").acima_limite = true ↔
        SPEED_LIMIT < SENSOR_DIST_M / (agora - tA) * 3.6)) ∧
    ((agora - tA ≤ 0 ∨ 10 < agora - tA ∨
        200 < SENSOR_DIST_M / (agora - tA) * 3.6) →
      callback_sensor_b SENSOR_DIST_M SPEED_LIMIT uid rid ts agora (some tA) db =
        (none, db)) := by
  constructor
  · intro h1 h2 h3
    have hni : ¬ (agora - tA ≤ 0 ∨ agora - tA > 10) := by
      push_neg
      exact ⟨h1, h2⟩
    have hnv : ¬ (SENSOR_DIST_M / (agora - tA) * 3.6 > 200) := not_lt.mpr h3
    constructor
    · simp only [callback_sensor_b]
      rw [if_neg hni, if_neg hnv]
      rfl
    · simp [nova_deteccao]
  · intro h
    rcases h with h1 | h2 | h3
    · simp only [callback_sensor_b]
      rw [if_pos (Or.inl h1)]
    · simp only [callback_sensor_b]
      rw [if_pos (Or.inr h2)]
    · by_cases hi : agora - tA ≤ 0 ∨ agora - tA > 10
      · simp only [callback_sensor_b]
        rw [if_pos hi]
      · simp only [callback_sensor_b]
        rw [if_neg hi, if_pos h3]

/-- Witness for C2 at the spec's own example: distance 1 m, Δt = 0.18 s,
limit 20 km/h — a single emitted row of speed exactly 20 km/h with the
over-limit flag false (strict comparison). -/
theorem c2_witness :
    callback_sensor_b 1 20 "u" "r" "t" (9 / 50) (some 0) [] =
      (none, [] ++ [nova_deteccao 20 "u" "r" "t"
        ((1 : ℚ) / (9 / 50 - 0) * 3.6) "A->B"]) ∧
    ((nova_deteccao 20 "u" "r" "t" ((1 : ℚ) / (9 / 50 - 0) * 3.6)
        "A->B").acima_limite = true ↔
      (20 : ℚ) < 1 / (9 / 50 - 0) * 3.6) :=
  (c2_calculo_velocidade 1 20 "u" "r" "t" (9 / 50) 0 []).1
    (by norm_num) (by norm_num) (by norm_num)

/-- C9: the edge realtime buffer holds at most 50 events across any
append (an append at 50 drops exactly the oldest entry, index 0, and an
append below 50 drops nothing), and the edge `/api/eventos` endpoint
answers with at most the 20 most recent events, newest first. -/
theorem c9_buffer_realtime_limitado (eventos_realtime : List Evento)
    (dados : Evento) :
    (eventos_realtime.length ≤ 50 →
      (adicionar_evento_realtime eventos_realtime dados).length ≤ 50) ∧
    (eventos_realtime.length < 50 →
      adicionar_evento_realtime eventos_realtime dados =
        eventos_realtime ++ [dados]) ∧
    (eventos_realtime.length = 50 →
      adicionar_evento_realtime eventos_realtime dados =
        eventos_realtime.tail ++ [dados]) ∧
    api_eventos eventos_realtime = eventos_realtime.reverse.take 20 ∧
    (api_eventos eventos_realtime).length ≤ 20 := by
  refine ⟨?_, ?_, ?_, ?_, ?_⟩
  · intro h
    by_cases hb : 50 < eventos_realtime.length + 1
    · simp only [adicionar_evento_realtime]
      rw [if_pos (by simpa using hb)]
      simp
      omega
    · simp only [adicionar_evento_realtime]
      rw [if_neg (by simpa using hb)]
      simp
      omega
  · intro h
    simp only [adicionar_evento_realtime]
    rw [if_neg (by simp; omega)]
  · intro h
    simp only [adicionar_evento_realtime]
    rw [if_pos (by simp [h])]
    cases eventos_realtime with
    | nil => simp at h
    | cons e rest => simp
  · exact List.take_reverse.symm
  · rw [api_eventos]
    simp
    omega

/-- C7: after a poll step for a node, the cached entry of that node is
exactly the fresh one — its online flag is true iff the status probe
succeeded, regardless of any previous cache content — a failed probe
keeps the registry's last-known display name and leaves the central
event buffer untouched, other nodes' cache entries are untouched, and a
polling pass never removes a node from the registry. -/
theorem c7_online_reflete_ultima_sondagem (radar_id : String) (info : RadarInfo)
    (status_resposta : Option EdgeStatus)
    (eventos_resposta : Option (List Evento))
    (cache : List (String × StatusEntry)) (eventos_recentes : List Evento) :
    (∃ e, dict_get (poll_node radar_id info status_resposta eventos_resposta
          cache eventos_recentes).1 radar_id = some e ∧
        e.online = status_resposta.isSome ∧
        (status_resposta = none → e.radar_nome = info.radar_nome)) ∧
    (∀ k, k ≠ radar_id →
      dict_get (poll_node radar_id info status_resposta eventos_resposta
          cache eventos_recentes).1 k = dict_get cache k) ∧
    (status_resposta = none →
      (poll_node radar_id info status_resposta eventos_resposta
          cache eventos_recentes).2 = eventos_recentes) ∧
    ∀ (registro : List (String × RadarInfo))
      (status_de : String → Option EdgeStatus)
      (eventos_de : String → Option (List Evento))
      (c : List (String × StatusEntry)) (e : List Evento),
      (loop_polling_once registro status_de eventos_de c e).1 = registro := by
  refine ⟨?_, ?_, ?_, fun _ _ _ _ _ => rfl⟩
  · cases status_resposta with
    | some st =>
        exact ⟨{ online := true, ip := info.ip, radar_nome := st.radar_nome,
                 dados := some st },
               dict_get_dict_set_eq cache radar_id _, rfl,
               fun h => Option.noConfusion h⟩
    | none =>
        exact ⟨{ online := false, ip := info.ip, radar_nome := info.radar_nome,
                 dados := none },
               dict_get_dict_set_eq cache radar_id _, rfl, fun _ => rfl⟩
  · intro k hk
    cases status_resposta with
    | some st => exact dict_get_dict_set_ne cache radar_id k _ hk
    | none => exact dict_get_dict_set_ne cache radar_id k _ hk
  · intro h
    subst h
    rfl

/-- A concrete registry entry for witnesses. -/
def info_teste : RadarInfo :=
  { ip := "10.0.0.2", radar_nome := "portaria", descoberto_em := "d" }

/-- Witness for C7 at a concrete failed poll of node `r1`. -/
theorem c7_witness :
    (poll_node "r1" info_teste none none [] []).2 = ([] : List Evento) ∧
    dict_get (poll_node "r1" info_teste none none [] []).1 "r2" =
      dict_get ([] : List (String × StatusEntry)) "r2" ∧
    (loop_polling_once [("r1", info_teste)] (fun _ => none) (fun _ => none)
        [] []).1 = [("r1", info_teste)] :=
  ⟨(c7_online_reflete_ultima_sondagem "r1" info_teste none none [] []).2.2.1 rfl,
   (c7_online_reflete_ultima_sondagem "r1" info_teste none none [] []).2.1 "r2"
     (by decide),
   (c7_online_reflete_ultima_sondagem "r1" info_teste none none [] []).2.2.2
     [("r1", info_teste)] (fun _ => none) (fun _ => none) [] []⟩

/-- A concrete event for counterexamples and witnesses. -/
def ev_teste (u : String) : Evento :=
  { uuid := u, radar_id := "r", radar_nome := "n", velocidade := 10,
    limite := 20, acima_limite := false, timestamp := "t", direcao := "A->B" }

/-- A central live buffer of 51 events with pairwise distinct uuids
`"0" … "50"`, newest first — the state after 51 distinct events have
been ingested (capacity is 200, so nothing was evicted). -/
def buf_51 : List Evento := (List.range 51).map (fun i => ev_teste (toString i))

/-- C3 counterexample: the dedup look-back consults only the first 50
buffer entries (`eventos_recentes[:50]`), not the whole buffer.  In a
51-event buffer whose oldest entry (position 50) has uuid `"50"`,
polling a page that carries uuid `"50"` again appends it a second time:
the buffer then holds two events with that source detection uuid. -/
theorem c3_contraexemplo :
    buf_51.countP (fun e => decide (e.uuid = "50")) = 1 ∧
    (processar_eventos_poll buf_51 [ev_teste "50"]).countP
        (fun e => decide (e.uuid = "50")) = 2 := by decide

/-- C3 amended: the dedup guarantee holds only for the 50 most recent
entries — an incoming event whose uuid already occurs among the first
50 entries of the buffer at append time is never appended again. -/
theorem c3_dedup_janela_50 (eventos_recentes : List Evento) (ev : Evento)
    (h : (eventos_recentes.take 50).any
        (fun e => decide (e.uuid = ev.uuid)) = true) :
    processar_eventos_poll eventos_recentes [ev] = eventos_recentes := by
  have hc : ¬ (ev.uuid ≠ "" ∧
      ¬ (eventos_recentes.take 50).any
          (fun e => decide (e.uuid = ev.uuid)) = true) :=
    fun hand => hand.2 h
  simp only [processar_eventos_poll, List.take_succ_cons, List.take_nil,
    List.foldl_cons, List.foldl_nil]
  rw [if_neg hc]

/-- Witness for C3 (amended): an event whose uuid heads the buffer is
not re-appended. -/
theorem c3_witness :
    processar_eventos_poll [ev_teste "x"] [ev_teste "x"] = [ev_teste "x"] :=
  c3_dedup_janela_50 [ev_teste "x"] (ev_teste "x") (by decide)

lemma escanear_fold_resultado (resposta : String → Option PingResp)
    (agora : String) :
    ∀ (hosts : List String) (acc : List (String × PingResp))
      (reg : List (String × RadarInfo)),
      (hosts.foldl (passo_scan resposta agora) (acc, reg)).1 =
        acc ++ hosts.filterMap (fun ip => descobrir_radar ip (resposta ip))
  | [], acc, reg => by simp
  | ip :: hosts, acc, reg => by
      rw [List.foldl_cons, List.filterMap_cons]
      cases hd : descobrir_radar ip (resposta ip) with
      | none =>
          have hp : passo_scan resposta agora (acc, reg) ip = (acc, reg) := by
            simp [passo_scan, hd]
          rw [hp, escanear_fold_resultado resposta agora hosts acc reg]
      | some r =>
          have hp : passo_scan resposta agora (acc, reg) ip =
              (acc ++ [r], dict_set reg r.2.radar_id
                { ip := ip, radar_nome := r.2.radar_nome,
                  descoberto_em := agora }) := by
            simp [passo_scan, hd]
          rw [hp, escanear_fold_resultado resposta agora hosts (acc ++ [r]) _]
          simp

/-- C4 amended: the result set of a completed scan is exactly the hosts
whose identity probe answered with service tag `"radar"` (an entry per
qualifying host, none for a timeout, error or foreign service). -/
theorem c4_resultado_descoberta (hosts : List String)
    (resposta : String → Option PingResp)
    (registro : List (String × RadarInfo)) (agora : String)
    (x : String × PingResp) :
    x ∈ (escanear_rede hosts resposta registro agora).1 ↔
      x.1 ∈ hosts ∧ resposta x.1 = some x.2 ∧ x.2.servico = "radar" := by
  rw [escanear_rede, escanear_fold_resultado resposta agora hosts [] registro,
    List.nil_append, List.mem_filterMap]
  constructor
  · rintro ⟨ip, hip, hd⟩
    cases hr : resposta ip with
    | none =>
        rw [hr] at hd
        exact Option.noConfusion hd
    | some dados =>
        rw [hr] at hd
        have hd2 : (if dados.servico = "radar"
            then some (ip, dados) else none) = some x := hd
        by_cases hs : dados.servico = "radar"
        · rw [if_pos hs] at hd2
          cases hd2
          exact ⟨hip, hr, hs⟩
        · rw [if_neg hs] at hd2
          exact Option.noConfusion hd2
  · rintro ⟨h1, h2, h3⟩
    refine ⟨x.1, h1, ?_⟩
    rw [h2]
    show (if x.2.servico = "radar" then some (x.1, x.2) else none) = some x
    rw [if_pos h3]

/-- C4 counterexample: the in-flight bound of (≈)50 probes is not
enforced.  `spawn_vivos` follows the spawn loop of `escanear_rede`: one
`t.start()` per host, with a 0.1 s sleep — and nothing else — when 50
or more probes are alive.  In the feasible execution in which no probe
has finished during the first 51 iterations (the loop reaches the 51st
start roughly 0.2 s in, while a probe may run up to the 1.5 s
`SCAN_TIMEOUT`), 51 probes are in flight at once. -/
theorem c4_contraexemplo : 50 < spawn_vivos (List.replicate 51 0) := by decide

lemma config_local_passo_pg_pass (cfg : List (String × String))
    (linha : List Char)
    (h : (env_linha_chave_valor linha).map Prod.fst = some "PG_PASS") :
    config_local_passo cfg linha = cfg := by
  cases he : env_linha_chave_valor linha with
  | none =>
      unfold config_local_passo
      rw [he]
  | some kv =>
      rw [he] at h
      have hk : kv.1 = "PG_PASS" := by simpa using h
      unfold config_local_passo
      rw [he]
      exact if_pos hk

/-- C10: the configuration-read endpoints never disclose the Postgres
password.  The manager's config GET answers identically for any two
stored configurations differing only in `pg_pass`, and the edge node's
config-local GET answers identically for any two `.env` files whose
lines agree except for the value carried by `PG_PASS` lines. -/
theorem c10_senha_nunca_divulgada (config : ManagerConfig) (p1 p2 : String)
    (linhas1 linhas2 : List (List Char))
    (h : List.Forall₂ (fun a b => a = b ∨
      ((env_linha_chave_valor a).map Prod.fst = some "PG_PASS" ∧
       (env_linha_chave_valor b).map Prod.fst = some "PG_PASS"))
      linhas1 linhas2) :
    api_get_config { config with pg_pass := p1 } =
      api_get_config { config with pg_pass := p2 } ∧
    api_config_local linhas1 = api_config_local linhas2 := by
  refine ⟨rfl, ?_⟩
  have haux : ∀ cfg, linhas1.foldl config_local_passo cfg =
      linhas2.foldl config_local_passo cfg := by
    induction h with
    | nil => intro cfg; rfl
    | cons hab htail ih =>
        intro cfg
        rcases hab with rfl | ⟨ha, hb⟩
        · rw [List.foldl_cons, List.foldl_cons]
          exact ih _
        · rw [List.foldl_cons, List.foldl_cons,
            config_local_passo_pg_pass _ _ ha, config_local_passo_pg_pass _ _ hb]
          exact ih _
  exact haux []

/-- Witness for C10: two manager configs and two `.env` files differing
only in the password produce identical responses. -/
theorem c10_witness :
    api_get_config
        { pg_host := "h", pg_port := 5432, pg_db := "radares",
          pg_user := "admin", pg_pass := "secreta1", api_token := "tok",
          speed_limit := 20, sensor_dist_m := 1, sensor_a_pin := 17,
          sensor_b_pin := 27, sync_interval := 30,
          radares_conhecidos := [] } =
      api_get_config
        { pg_host := "h", pg_port := 5432, pg_db := "radares",
          pg_user := "admin", pg_pass := "secreta2", api_token := "tok",
          speed_limit := 20, sensor_dist_m := 1, sensor_a_pin := 17,
          sensor_b_pin := 27, sync_interval := 30,
          radares_conhecidos := [] } ∧
    api_config_local ["PG_HOST=h".toList, "PG_PASS=secreta1".toList] =
      api_config_local ["PG_HOST=h".toList, "PG_PASS=secreta2".toList] :=
  c10_senha_nunca_divulgada
    { pg_host := "h", pg_port := 5432, pg_db := "radares",
      pg_user := "admin", pg_pass := "", api_token := "tok",
      speed_limit := 20, sensor_dist_m := 1, sensor_a_pin := 17,
      sensor_b_pin := 27, sync_interval := 30, radares_conhecidos := [] }
    "secreta1" "secreta2"
    ["PG_HOST=h".toList, "PG_PASS=secreta1".toList]
    ["PG_HOST=h".toList, "PG_PASS=secreta2".toList]
    (List.Forall₂.cons (Or.inl rfl)
      (List.Forall₂.cons (Or.inr ⟨by decide, by decide⟩) List.Forall₂.nil))

/-- Witness for C9 at a concrete full buffer of 50 events. -/
theorem c9_witness :
    adicionar_evento_realtime
        (List.replicate 50
          { uuid := "a", radar_id := "r", radar_nome := "n", velocidade := 10,
            limite := 20, acima_limite := false, timestamp := "t",
            direcao := "A->B" })
        { uuid := "b", radar_id := "r", radar_nome := "n", velocidade := 30,
          limite := 20, acima_limite := true, timestamp := "t2",
          direcao := "A->B" } =
      (List.replicate 50
          { uuid := "a", radar_id := "r", radar_nome := "n", velocidade := 10,
            limite := 20, acima_limite := false, timestamp := "t",
            direcao := "A->B" }).tail ++
        [{ uuid := "b", radar_id := "r", radar_nome := "n", velocidade := 30,
           limite := 20, acima_limite := true, timestamp := "t2",
           direcao := "A->B" }] :=
  (c9_buffer_realtime_limitado _ _).2.2.1 (by simp)

end RadarSys
